import Mathlib

/-!
Shallow embedding of `ofrak_patch_maker/toolchain/abstract.py` (class `Toolchain`)
and the Python standard-library path functions it uses (`os.path.join`,
`os.path.split`, `os.path.abspath` on POSIX).  Stateful aspects (the ambient
process environment, subprocess invocations) are modelled by explicit state
passing: every operation that may spawn an external tool returns the list of
invocations it performed together with the ambient environment after the call.
Strings are manipulated through their character lists so that all definitions
reduce inside the kernel.
-/

namespace Ofrak

/-! ### String primitives (Python `str.startswith`, `str.endswith`,
`str.split('/')`, `'/'.join`, `' '.join`, `sub in s`) -/

/-- Python `s.startswith(pre)`. -/
def pyStartsWith (s pre : String) : Bool := pre.data.isPrefixOf s.data

/-- Python `s.endswith(suf)`. -/
def pyEndsWith (s suf : String) : Bool := suf.data.isSuffixOf s.data

/-- Python `s.split('/')` on the character list. -/
def splitSlashAux : List Char → List (List Char)
  | [] => [[]]
  | c :: rest =>
    let r := splitSlashAux rest
    if c = '/' then [] :: r
    else
      match r with
      | h :: t => (c :: h) :: t
      | [] => [[c]]

/-- Python `s.split('/')`. -/
def splitSlash (s : String) : List String := (splitSlashAux s.data).map String.mk

/-- Python `'/'.join(parts)`. -/
def joinSlash : List String → String
  | [] => ""
  | [x] => x
  | x :: xs => x ++ "/" ++ joinSlash xs

/-- Python `' '.join(parts)` (used for logging and error messages). -/
def joinSpace : List String → String
  | [] => ""
  | [x] => x
  | x :: xs => x ++ " " ++ joinSpace xs

/-- Python `sub in s`: substring containment. -/
def pyInStr (sub s : String) : Bool := decide (List.IsInfix sub.data s.data)

/-! ### POSIX path functions (`posixpath.join`, `split`, `normpath`, `abspath`) -/

/-- `posixpath.isabs`. -/
def isAbs (p : String) : Bool := pyStartsWith p "/"

/-- `posixpath.join(a, b)` (two-argument form, as used by the source). -/
def pjoin (a b : String) : String :=
  if isAbs b then b
  else if a = "" ∨ pyEndsWith a "/" then a ++ b
  else a ++ "/" ++ b

/-- `posixpath.split(p)[-1]`: the tail component after the last slash. -/
def splitTail (p : String) : String :=
  String.mk ((p.data.reverse.takeWhile (fun c => c ≠ '/')).reverse)

/-- One step of the component loop inside `posixpath.normpath`. -/
def normpathStep (initSlash : Bool) (acc : List String) (comp : String) : List String :=
  if comp = "" ∨ comp = "." then acc
  else if comp ≠ ".." ∨ ((¬ initSlash) ∧ acc = []) ∨ (acc ≠ [] ∧ acc.getLast? = some "..") then
    acc ++ [comp]
  else if acc ≠ [] then acc.dropLast
  else acc

/-- `posixpath.normpath`. -/
def normpath (path : String) : String :=
  if path = "" then "."
  else
    let initialSlashes : Nat :=
      if pyStartsWith path "/" then
        if pyStartsWith path "//" ∧ ¬ pyStartsWith path "///" then 2 else 1
      else 0
    let comps := splitSlash path
    let newComps := comps.foldl (normpathStep (initialSlashes > 0)) []
    let joined := String.mk (List.replicate initialSlashes '/') ++ joinSlash newComps
    if joined = "" then "." else joined

/-- `posixpath.abspath`, with the process working directory passed explicitly. -/
def abspath (cwd path : String) : String :=
  normpath (if isAbs path then path else pjoin cwd path)

/-! ### Data model

`FileFormat` models the binary file-format identifier stored in
`ToolchainConfig.file_format`.  Python compares these values with `is`
(object identity) in `Toolchain.__init__`, so the model carries an object
identity `oid` separately from the format `value`; `formatIs` is `is` and
`formatEq` is `==`. -/

structure FileFormat where
  oid : Nat
  value : Nat
  name : String
deriving DecidableEq, Repr

/-- Python `a is b` on file-format values: same object. -/
def formatIs (a b : FileFormat) : Bool := a.oid == b.oid

/-- Python `a == b` on file-format values: same format value. -/
def formatEq (a b : FileFormat) : Bool := a.value == b.value

/-- An entry of `Toolchain.binary_file_parsers`; only its `file_format`
attribute is consulted by the source file. -/
structure BinaryFileParser where
  oid : Nat
  file_format : FileFormat
deriving DecidableEq, Repr

/-- The fields of `ToolchainConfig` that `abstract.py` reads
(`file_format`, `userspace_dynamic_linker`, `relocatable`,
`separate_data_sections`, `create_map_files`). -/
structure ToolchainConfig where
  file_format : FileFormat
  userspace_dynamic_linker : Option String := none
  relocatable : Bool := false
  separate_data_sections : Bool := false
  create_map_files : Bool := false
deriving DecidableEq, Repr

/-- Hardware description; `abstract.py` only stores it and passes it to the
per-back-end target hooks, so no field is needed by the claims. -/
structure ArchInfo where
  oid : Nat := 0
deriving DecidableEq, Repr

/-- Errors raised by the source: `ValueError` in `__init__` is a
configuration error, `ValueError` in `_execute_tool` is a tool-execution
error, and `NotImplementedError` in `keep_section` is an unsupported
operation. -/
inductive ToolchainError where
  | configurationError (msg : String)
  | toolExecutionError (msg : String)
  | unsupportedOperation (msg : String)
deriving DecidableEq, Repr

/-- Tool paths as resolved through `get_repository_config` /
`toolchain.conf` (external configuration, outside this source file); the
driver only forwards them to the process runner. -/
structure ToolPaths where
  preprocessor : String
  compiler : String
  assembler : String
  linker : String
deriving DecidableEq, Repr

/-- Post-construction state of a `Toolchain` instance.  The flag lists are
`[]` after the base `__init__` but concrete back ends extend them in their
own constructors, so they are ordinary fields here.  `linker_script_flag`
models the abstract `_linker_script_flag` property. -/
structure Toolchain where
  parser : BinaryFileParser
  processor : ArchInfo
  config : ToolchainConfig
  preprocessor_flags : List String := []
  compiler_flags : List String := []
  assembler_flags : List String := []
  linker_flags : List String := []
  linker_keep_list : List String
  linker_discard_list : List String
  paths : ToolPaths
  linker_script_flag : String
  assembler_target : String
  compiler_target : Option String
deriving DecidableEq, Repr

/-- The parser-selection loop of `Toolchain.__init__` (lines 64-68): first
parser in `binary_file_parsers` whose `file_format` `is` the configured
format. -/
def findParser : List BinaryFileParser → FileFormat → Option BinaryFileParser
  | [], _ => none
  | p :: rest, fmt => if formatIs p.file_format fmt then some p else findParser rest fmt

/-- The `ValueError` message of `Toolchain.__init__`. -/
def noParserMsg (fmt : FileFormat) : String :=
  "No binary file parser found for format " ++ fmt.name ++ "!"

/-- The fixed keep list installed by `__init__`. -/
def defaultKeepList : List String := [".data", ".rodata", ".text", ".rel"]

/-- The fixed discard list installed by `__init__`. -/
def defaultDiscardList : List String :=
  [".gnu.hash", ".comment", ".ARM.attributes", ".dynamic", ".ARM.exidx",
   ".hash", ".dynsym", ".dynstr", ".eh_frame"]

/-- `Toolchain.__init__`.  The abstract target hooks
`_get_assembler_target` / `_get_compiler_target` are subclass-supplied and
may raise, so they enter as `Except` parameters; they are evaluated after
the parser check, as in the source. -/
def Toolchain.init (binary_file_parsers : List BinaryFileParser)
    (processor : ArchInfo) (toolchain_config : ToolchainConfig)
    (paths : ToolPaths) (linker_script_flag : String)
    (getAssemblerTarget : Except ToolchainError String)
    (getCompilerTarget : Except ToolchainError (Option String)) :
    Except ToolchainError Toolchain :=
  match findParser binary_file_parsers toolchain_config.file_format with
  | none => .error (.configurationError (noParserMsg toolchain_config.file_format))
  | some p => do
    let asmTarget ← getAssemblerTarget
    let compTarget ← getCompilerTarget
    .ok { parser := p
          processor := processor
          config := toolchain_config
          preprocessor_flags := []
          compiler_flags := []
          assembler_flags := []
          linker_flags := []
          linker_keep_list := defaultKeepList
          linker_discard_list := defaultDiscardList
          paths := paths
          linker_script_flag := linker_script_flag
          assembler_target := asmTarget
          compiler_target := compTarget }

/-! ### Process runner and `_execute_tool` -/

/-- Environment mapping (Python `dict` of variable name to value, unique keys). -/
abbrev Env := List (String × String)

/-- Python `d[k] = v` on an environment dictionary. -/
def envSet : Env → String → String → Env
  | [], k, v => [(k, v)]
  | (k', v') :: rest, k, v =>
    if k' = k then (k, v) :: rest else (k', v') :: envSet rest k v

/-- Python `base.update(overlay)`. -/
def envUpdate (base overlay : Env) : Env :=
  overlay.foldl (fun acc kv => envSet acc kv.1 kv.2) base

/-- Result of one external process run (`subprocess.run`): exit status and
captured standard output. -/
structure ProcResult where
  returncode : Int
  stdout : String
deriving DecidableEq, Repr

/-- Behaviour of the operating system when asked to run an argument vector
under an effective environment. -/
abbrev ProcessRunner := List String → Env → ProcResult

/-- One recorded subprocess invocation: the argument vector and the
effective environment the subprocess sees. -/
structure Invocation where
  args : List String
  env : Env
deriving DecidableEq, Repr

deriving instance DecidableEq for Except

/-- Outcome of a driver operation: its result (the raised `ValueError`
on non-zero exit, otherwise the returned value), the subprocess
invocations it performed, and the ambient `os.environ` afterwards. -/
structure ExecOutcome where
  result : Except ToolchainError String
  invocations : List Invocation
  ambientAfter : Env
deriving DecidableEq, Repr

/-- The argument vector built by `_execute_tool`:
`args = [tool_path] + final_flags + in_files` where `final_flags` is
`flags` plus `-o<out_file>` when an output file is given. -/
def execArgs (tool_path : String) (flags : List String) (in_files : List String)
    (out_file : Option String) : List String :=
  [tool_path] ++ (flags ++ (match out_file with | some f => ["-o" ++ f] | none => [])) ++ in_files

/-- The environment `subprocess.run` is given: Python's `if env:` is false
for both `None` and the empty dict, in which case the ambient environment
is inherited; otherwise `my_env = os.environ.copy(); my_env.update(env)`. -/
def effectiveEnv (osEnviron : Env) (env : Option Env) : Env :=
  match env with
  | some e => if e ≠ [] then envUpdate osEnviron e else osEnviron
  | none => osEnviron

/-- The `ValueError` message raised by `_execute_tool` on non-zero exit. -/
def toolErrorMsg (args : List String) (code : Int) : String :=
  "Command \"" ++ joinSpace args ++ "\" returned non-zero exit status " ++ toString code

/-- `Toolchain._execute_tool`.  `os.environ` is threaded explicitly; the
source copies it (`os.environ.copy()`) before applying the overlay, so the
ambient environment is returned unchanged. -/
def executeTool (run : ProcessRunner) (osEnviron : Env)
    (tool_path : String) (flags : List String) (in_files : List String)
    (out_file : Option String := none) (env : Option Env := none) : ExecOutcome :=
  let args := execArgs tool_path flags in_files out_file
  let effEnv := effectiveEnv osEnviron env
  let proc := run args effEnv
  { result :=
      if proc.returncode ≠ 0 then
        .error (.toolExecutionError (toolErrorMsg args proc.returncode))
      else
        .ok proc.stdout
    invocations := [⟨args, effEnv⟩]
    ambientAfter := osEnviron }

/-! ### Pipeline operations -/

/-- `Toolchain.preprocess`: output file `join(out_dir, split(source_file)[-1] + ".p")`,
input vector `[source_file] + ["-I" + x for x in header_dirs]`, returns
`os.path.abspath(out_file)` on success. -/
def Toolchain.preprocess (t : Toolchain) (run : ProcessRunner) (osEnviron : Env)
    (cwd : String) (source_file : String) (header_dirs : List String)
    (out_dir : String := ".") : ExecOutcome :=
  let out_file := pjoin out_dir (splitTail source_file ++ ".p")
  let o := executeTool run osEnviron t.paths.preprocessor t.preprocessor_flags
    ([source_file] ++ header_dirs.map (fun x => "-I" ++ x)) (some out_file) none
  { o with result := o.result.map (fun _ => abspath cwd out_file) }

/-- `Toolchain.compile`: as `preprocess` with suffix `".o"` and the compiler. -/
def Toolchain.compile (t : Toolchain) (run : ProcessRunner) (osEnviron : Env)
    (cwd : String) (c_file : String) (header_dirs : List String)
    (out_dir : String := ".") : ExecOutcome :=
  let out_file := pjoin out_dir (splitTail c_file ++ ".o")
  let o := executeTool run osEnviron t.paths.compiler t.compiler_flags
    ([c_file] ++ header_dirs.map (fun x => "-I" ++ x)) (some out_file) none
  { o with result := o.result.map (fun _ => abspath cwd out_file) }

/-- `Toolchain.assemble`: as `compile` with the assembler. -/
def Toolchain.assemble (t : Toolchain) (run : ProcessRunner) (osEnviron : Env)
    (cwd : String) (asm_file : String) (header_dirs : List String)
    (out_dir : String := ".") : ExecOutcome :=
  let out_file := pjoin out_dir (splitTail asm_file ++ ".o")
  let o := executeTool run osEnviron t.paths.assembler t.assembler_flags
    ([asm_file] ++ header_dirs.map (fun x => "-I" ++ x)) (some out_file) none
  { o with result := o.result.map (fun _ => abspath cwd out_file) }

/-- The flag list built by `Toolchain.link` before delegation: configured
linker flags, then the script flag when a script is given, then the
subclass map-file flags when `create_map_files` is set.
`_get_linker_map_flag` is a static abstract method, passed as `mapFlagFn`. -/
def Toolchain.linkFlags (t : Toolchain) (mapFlagFn : String → List String)
    (exec_path : String) (script : Option String) : List String :=
  t.linker_flags ++
    (match script with | some s => [t.linker_script_flag ++ s] | none => []) ++
    (if t.config.create_map_files then mapFlagFn exec_path else [])

/-- `Toolchain.link`. -/
def Toolchain.link (t : Toolchain) (run : ProcessRunner) (osEnviron : Env)
    (mapFlagFn : String → List String) (o_files : List String)
    (exec_path : String) (script : Option String := none) : ExecOutcome :=
  executeTool run osEnviron t.paths.linker (t.linkFlags mapFlagFn exec_path script)
    o_files (some exec_path) none

/-! ### Section policy and symbol filter -/

/-- `Toolchain.linker_include_filter`. -/
def Toolchain.linker_include_filter (symbol_name : String) : Bool :=
  pyInStr "." symbol_name || pyInStr "_DYNAMIC" symbol_name

/-- `Toolchain.keep_section`: raises `NotImplementedError` under
`separate_data_sections`, otherwise membership in the keep list. -/
def Toolchain.keep_section (t : Toolchain) (section_name : String) :
    Except ToolchainError Bool :=
  if t.config.separate_data_sections then
    .error (.unsupportedOperation
      "you must override keep_section() in your Toolchain sublass")
  else
    .ok (t.linker_keep_list.contains section_name)

/-- `Toolchain.ld_generate_placeholder_reloc_sections` (base default). -/
def Toolchain.ld_generate_placeholder_reloc_sections (_t : Toolchain) :
    List String × List String :=
  ([], [])

/-! ### Concrete fixtures used by witnesses and counterexamples -/

/-- A sample ELF-like file-format value. -/
def fmtElf : FileFormat := ⟨0, 1, "ELF"⟩

/-- A registered parser bound to `fmtElf`. -/
def parserElf : BinaryFileParser := ⟨10, fmtElf⟩

/-- A sample configuration using `fmtElf` and all-default flags. -/
def cfgBase : ToolchainConfig := { file_format := fmtElf }

/-- Sample resolved tool paths. -/
def samplePaths : ToolPaths := ⟨"pp", "cc", "as", "ld"⟩

/-- The driver state `Toolchain.init` produces from the fixtures, with a
concrete preprocessor flag added the way a back-end constructor would. -/
def tElf : Toolchain :=
  { parser := parserElf
    processor := ⟨0⟩
    config := cfgBase
    preprocessor_flags := ["-E"]
    linker_keep_list := defaultKeepList
    linker_discard_list := defaultDiscardList
    paths := samplePaths
    linker_script_flag := "-T"
    assembler_target := "tgt"
    compiler_target := none }

/-- A process runner whose tool always exits 0. -/
def runOk : ProcessRunner := fun _ _ => ⟨0, "out"⟩

/-- A process runner whose tool always exits 2. -/
def runFail2 : ProcessRunner := fun _ _ => ⟨2, "boom"⟩

end Ofrak


namespace Ofrak

/-! ### Helper lemmas -/

/-- A singleton list is an infix exactly when its element is a member. -/
theorem singleton_isInfix_iff {α : Type} (a : α) (l : List α) :
    List.IsInfix [a] l ↔ a ∈ l := by
  constructor
  · rintro ⟨s, t, rfl⟩
    simp
  · intro h
    obtain ⟨s, t, rfl⟩ := List.append_of_mem h
    exact ⟨s, t, by simp⟩

/-- The parser-selection loop finds no parser exactly when no registered
parser's format `is` the configured format. -/
theorem findParser_eq_none_iff (parsers : List BinaryFileParser) (fmt : FileFormat) :
    findParser parsers fmt = none ↔
      ∀ p ∈ parsers, formatIs p.file_format fmt = false := by
  induction parsers with
  | nil => simp [findParser]
  | cons p rest ih =>
    by_cases h : formatIs p.file_format fmt
    · simp [findParser, h]
    · simp only [Bool.not_eq_true] at h
      simp [findParser, h, ih]

/-! ### Claim theorems -/

/-- Claim C6: when `separate_data_sections` is true and no back-end
override exists, `keep_section` raises `NotImplementedError` (an
unsupported-operation error) for every section name, never returning a
boolean. -/
theorem keep_section_separate_raises (t : Toolchain) (name : String)
    (hsep : t.config.separate_data_sections = true) :
    t.keep_section name = .error (.unsupportedOperation
      "you must override keep_section() in your Toolchain sublass") := by
  simp [Toolchain.keep_section, hsep]

/-- Witness for C6 at a concrete driver state and the keep-list name
`".text"`: even a name in the fixed keep list raises. -/
theorem keep_section_separate_raises_witness :
    Toolchain.keep_section
        { tElf with config := { cfgBase with separate_data_sections := true } } ".text"
      = .error (.unsupportedOperation
          "you must override keep_section() in your Toolchain sublass") :=
  keep_section_separate_raises _ ".text" rfl

/-- Claim C8: `linker_include_filter` holds exactly when the symbol name
contains the character `'.'` or the literal substring `"_DYNAMIC"`, and the
three quoted evaluations hold. -/
theorem linker_include_filter_spec :
    (∀ name : String, Toolchain.linker_include_filter name = true ↔
      ('.' ∈ name.data ∨ List.IsInfix "_DYNAMIC".data name.data)) ∧
    Toolchain.linker_include_filter "foo.bar" = true ∧
    Toolchain.linker_include_filter "_DYNAMIC_LINK" = true ∧
    Toolchain.linker_include_filter "plain" = false := by
  refine ⟨fun name => ?_, by decide, by decide, by decide⟩
  have hdot : (".".data) = ['.'] := by decide
  simp [Toolchain.linker_include_filter, pyInStr, Bool.or_eq_true,
    decide_eq_true_iff, hdot, singleton_isInfix_iff]

/-- Claim C4: construction fails with a configuration error whenever no
registered parser's format matches the configured format, and otherwise
binds the instance to exactly the matched parser (the target hooks,
evaluated afterwards, are assumed to succeed). -/
theorem init_parser_binding (parsers : List BinaryFileParser) (processor : ArchInfo)
    (cfg : ToolchainConfig) (paths : ToolPaths) (lsf : String)
    (aT : Except ToolchainError String) (cT : Except ToolchainError (Option String)) :
    ((∀ p ∈ parsers, formatIs p.file_format cfg.file_format = false) →
      Toolchain.init parsers processor cfg paths lsf aT cT
        = .error (.configurationError (noParserMsg cfg.file_format))) ∧
    (∀ p, findParser parsers cfg.file_format = some p →
      ∀ a c, aT = .ok a → cT = .ok c →
        ∃ t, Toolchain.init parsers processor cfg paths lsf aT cT = .ok t ∧
          t.parser = p) := by
  constructor
  · intro hnone
    rw [Toolchain.init, (findParser_eq_none_iff parsers cfg.file_format).mpr hnone]
  · intro p hp a c ha hc
    rw [Toolchain.init, hp, ha, hc]
    exact ⟨_, rfl, rfl⟩

/-- Witness for C4: with no registered parser, construction raises the
configuration error; with `parserElf` registered for the configured format,
construction succeeds and binds `parserElf`. -/
theorem init_parser_binding_witness :
    (Toolchain.init [] ⟨0⟩ cfgBase samplePaths "-T" (.ok "tgt") (.ok none)
      = .error (.configurationError "No binary file parser found for format ELF!")) ∧
    (∃ t, Toolchain.init [parserElf] ⟨0⟩ cfgBase samplePaths "-T" (.ok "tgt") (.ok none)
      = .ok t ∧ t.parser = parserElf) := by
  constructor
  · have h := (init_parser_binding [] ⟨0⟩ cfgBase samplePaths "-T"
      (.ok "tgt") (.ok none)).1 (by simp)
    rw [h]
    decide
  · exact (init_parser_binding [parserElf] ⟨0⟩ cfgBase samplePaths "-T"
      (.ok "tgt") (.ok none)).2 parserElf (by decide) "tgt" none rfl rfl

/-- Claim C10: the selection loop picks the first parser in list order
whose format matches (it is `List.find?` of the match test), the match test
is object identity of the format value, and a distinct-but-equal format
value selects no parser, so construction fails. -/
theorem parser_match_is_identity :
    (∀ (parsers : List BinaryFileParser) (fmt : FileFormat),
      findParser parsers fmt = parsers.find? (fun p => formatIs p.file_format fmt)) ∧
    (∀ a b : FileFormat, formatIs a b = true ↔ a.oid = b.oid) ∧
    (formatEq ⟨1, 5, "ELF"⟩ ⟨0, 5, "ELF"⟩ = true ∧
      findParser [⟨10, ⟨0, 5, "ELF"⟩⟩] ⟨1, 5, "ELF"⟩ = none ∧
      Toolchain.init [⟨10, ⟨0, 5, "ELF"⟩⟩] ⟨0⟩ { file_format := ⟨1, 5, "ELF"⟩ }
          samplePaths "-T" (.ok "tgt") (.ok none)
        = .error (.configurationError (noParserMsg ⟨1, 5, "ELF"⟩))) := by
  refine ⟨fun parsers fmt => ?_, fun a b => by simp [formatIs], by decide, by decide, by decide⟩
  induction parsers with
  | nil => simp [findParser]
  | cons p rest ih => by_cases h : formatIs p.file_format fmt <;>
      simp [findParser, List.find?, h, ih]

/-- A successful construction carries the supplied configuration and the
fixed keep list installed by `__init__`. -/
theorem init_ok_fields
    (parsers : List BinaryFileParser) (processor : ArchInfo) (cfg : ToolchainConfig)
    (paths : ToolPaths) (lsf : String) (aT : Except ToolchainError String)
    (cT : Except ToolchainError (Option String)) (t : Toolchain)
    (hinit : Toolchain.init parsers processor cfg paths lsf aT cT = .ok t) :
    t.config = cfg ∧ t.linker_keep_list = defaultKeepList := by
  rw [Toolchain.init] at hinit
  cases hfp : findParser parsers cfg.file_format <;> rw [hfp] at hinit
  case none => simp at hinit
  case some p =>
    cases aT with
    | error e => simp [Bind.bind, Except.bind] at hinit
    | ok a =>
      cases cT with
      | error e => simp [Bind.bind, Except.bind] at hinit
      | ok c =>
        simp only [Bind.bind, Except.bind, Except.ok.injEq] at hinit
        subst hinit
        exact ⟨rfl, rfl⟩

/-- Claim C5: on a constructed driver with `separate_data_sections` false,
`keep_section` returns true exactly for `".data"`, `".rodata"`, `".text"`,
`".rel"`. -/
theorem keep_section_default_iff
    (parsers : List BinaryFileParser) (processor : ArchInfo) (cfg : ToolchainConfig)
    (paths : ToolPaths) (lsf : String) (aT : Except ToolchainError String)
    (cT : Except ToolchainError (Option String)) (t : Toolchain)
    (hinit : Toolchain.init parsers processor cfg paths lsf aT cT = .ok t)
    (hsep : cfg.separate_data_sections = false) (name : String) :
    t.keep_section name = .ok true ↔
      (name = ".data" ∨ name = ".rodata" ∨ name = ".text" ∨ name = ".rel") := by
  obtain ⟨hc, hk⟩ := init_ok_fields parsers processor cfg paths lsf aT cT t hinit
  rw [Toolchain.keep_section, hc, hsep, hk]
  simp [defaultKeepList]

/-- The exact driver state produced by `Toolchain.init` on the fixtures. -/
def tInit : Toolchain :=
  { parser := parserElf
    processor := ⟨0⟩
    config := cfgBase
    linker_keep_list := defaultKeepList
    linker_discard_list := defaultDiscardList
    paths := samplePaths
    linker_script_flag := "-T"
    assembler_target := "tgt"
    compiler_target := none }

/-- Witness for C5: on the concretely constructed driver, `".text"` is
kept. -/
theorem keep_section_default_iff_witness :
    Toolchain.keep_section tInit ".text" = .ok true :=
  (keep_section_default_iff [parserElf] ⟨0⟩ cfgBase samplePaths "-T"
    (.ok "tgt") (.ok none) tInit (by decide) rfl ".text").mpr (by tauto)

/-- Counterexample to C1 as stated: with the default output directory `"."`
and working directory `"/work"`, `preprocess` returns the absolutized path
`"/work/a.c.p"`, not `outDir/basename(input)+".p"` = `"./a.c.p"`. -/
theorem output_path_counterexample :
    (Toolchain.preprocess tElf runOk [] "/work" "dir/a.c" [] ".").result
      = .ok "/work/a.c.p" ∧
    pjoin "." (splitTail "dir/a.c" ++ ".p") = "./a.c.p" ∧
    ("/work/a.c.p" : String) ≠ "./a.c.p" := by
  refine ⟨by decide, by decide, by decide⟩

/-- Claim C1 (amended): on successful tool exit, `preprocess`, `compile`
and `assemble` return `os.path.abspath` of `outDir/basename(input)+suffix`
with suffixes `".p"`, `".o"`, `".o"`; the output file handed to the tool
itself is `outDir/basename(input)+suffix`. -/
theorem output_paths (t : Toolchain) (run : ProcessRunner) (osEnviron : Env)
    (cwd src : String) (hdirs : List String) (outDir : String)
    (hrun : ∀ a e, (run a e).returncode = 0) :
    (t.preprocess run osEnviron cwd src hdirs outDir).result
      = .ok (abspath cwd (pjoin outDir (splitTail src ++ ".p"))) ∧
    (t.compile run osEnviron cwd src hdirs outDir).result
      = .ok (abspath cwd (pjoin outDir (splitTail src ++ ".o"))) ∧
    (t.assemble run osEnviron cwd src hdirs outDir).result
      = .ok (abspath cwd (pjoin outDir (splitTail src ++ ".o"))) := by
  refine ⟨?_, ?_, ?_⟩ <;>
    simp [Toolchain.preprocess, Toolchain.compile, Toolchain.assemble,
      executeTool, hrun, Except.map]

/-- Witness for C1 (amended) at concrete inputs with an absolute,
normalized output directory, where `abspath` is the identity. -/
theorem output_paths_witness :
    (Toolchain.preprocess tElf runOk [] "/work" "src/a.c" ["inc"] "/out").result
      = .ok "/out/a.c.p" := by
  have h := (output_paths tElf runOk [] "/work" "src/a.c" ["inc"] "/out"
    (fun _ _ => rfl)).1
  rw [h]
  decide

/-- Counterexample to C2 as stated: the actual preprocess argument vector
places the `-o` flag before the input file and the `-I` flags after it, so
it differs from the claimed order
`tool, flags, -I dirs, inputs, -o outFile`. -/
theorem argument_order_counterexample :
    (Toolchain.preprocess tElf runOk [] "/w" "a.c" ["hd"] "/o").invocations
      = [⟨["pp", "-E", "-o/o/a.c.p", "a.c", "-Ihd"], []⟩] ∧
    (["pp", "-E", "-o/o/a.c.p", "a.c", "-Ihd"] : List String)
      ≠ ["pp", "-E", "-Ihd", "a.c", "-o/o/a.c.p"] := by
  refine ⟨by decide, by decide⟩

/-- Claim C2 (amended): every stage invokes the external process with the
vector `tool path, fixed flags, "-o"+outFile (when an output file applies),
input files`, where for `preprocess`/`compile`/`assemble` the input-file
list is the source file followed by one `"-I"+dir` per header directory. -/
theorem argument_order (t : Toolchain) (run : ProcessRunner) (osEnviron : Env)
    (cwd src : String) (hdirs : List String) (outDir : String)
    (mapFlagFn : String → List String) (ofiles : List String)
    (execPath : String) (script : Option String) :
    (t.preprocess run osEnviron cwd src hdirs outDir).invocations
      = [⟨[t.paths.preprocessor] ++ t.preprocessor_flags
          ++ ["-o" ++ pjoin outDir (splitTail src ++ ".p")]
          ++ ([src] ++ hdirs.map (fun x => "-I" ++ x)), osEnviron⟩] ∧
    (t.compile run osEnviron cwd src hdirs outDir).invocations
      = [⟨[t.paths.compiler] ++ t.compiler_flags
          ++ ["-o" ++ pjoin outDir (splitTail src ++ ".o")]
          ++ ([src] ++ hdirs.map (fun x => "-I" ++ x)), osEnviron⟩] ∧
    (t.assemble run osEnviron cwd src hdirs outDir).invocations
      = [⟨[t.paths.assembler] ++ t.assembler_flags
          ++ ["-o" ++ pjoin outDir (splitTail src ++ ".o")]
          ++ ([src] ++ hdirs.map (fun x => "-I" ++ x)), osEnviron⟩] ∧
    (t.link run osEnviron mapFlagFn ofiles execPath script).invocations
      = [⟨[t.paths.linker] ++ t.linkFlags mapFlagFn execPath script
          ++ ["-o" ++ execPath] ++ ofiles, osEnviron⟩] := by
  refine ⟨?_, ?_, ?_, ?_⟩ <;>
    simp [Toolchain.preprocess, Toolchain.compile, Toolchain.assemble,
      Toolchain.link, executeTool, execArgs, effectiveEnv]

/-- Claim C3: `_execute_tool` runs the tool exactly once (no retry); on a
non-zero exit status it raises a tool-execution error whose message carries
the space-joined full command line and the exit code, and on exit status 0
it returns the captured standard output. -/
theorem tool_execution_error (run : ProcessRunner) (osEnviron : Env)
    (tool : String) (flags in_files : List String) (out_file : Option String)
    (env : Option Env) :
    (executeTool run osEnviron tool flags in_files out_file env).invocations.length = 1 ∧
    ((run (execArgs tool flags in_files out_file)
        (effectiveEnv osEnviron env)).returncode ≠ 0 →
      (executeTool run osEnviron tool flags in_files out_file env).result
        = .error (.toolExecutionError
            (toolErrorMsg (execArgs tool flags in_files out_file)
              (run (execArgs tool flags in_files out_file)
                (effectiveEnv osEnviron env)).returncode))) ∧
    ((run (execArgs tool flags in_files out_file)
        (effectiveEnv osEnviron env)).returncode = 0 →
      (executeTool run osEnviron tool flags in_files out_file env).result
        = .ok (run (execArgs tool flags in_files out_file)
            (effectiveEnv osEnviron env)).stdout) := by
  refine ⟨rfl, fun h => ?_, fun h => ?_⟩ <;> simp [executeTool, h]

/-- Witness for C3: a simulated exit status 2 surfaces the error with the
exact joined command line and exit code. -/
theorem tool_execution_error_witness :
    (executeTool runFail2 [] "tool" ["-a"] ["in.c"] (some "out.o") none).result
      = .error (.toolExecutionError
          "Command \"tool -a -oout.o in.c\" returned non-zero exit status 2") := by
  have h := (tool_execution_error runFail2 [] "tool" ["-a"] ["in.c"]
    (some "out.o") none).2.1 (by decide)
  rw [h]
  decide

/-- Claim C7: under hypotheses that nothing else in the link invocation is
a map-file flag and that the back-end hook renders exactly one, the linker
argument vector contains exactly one map-file flag when `create_map_files`
is true and zero when it is false. -/
theorem link_map_file_flag (t : Toolchain) (run : ProcessRunner) (osEnviron : Env)
    (mapFlagFn : String → List String) (ofiles : List String) (execPath : String)
    (script : Option String) (isMapFlag : String → Bool)
    (htool : isMapFlag t.paths.linker = false)
    (hlf : ∀ f ∈ t.linker_flags, isMapFlag f = false)
    (hsf : ∀ s, script = some s → isMapFlag (t.linker_script_flag ++ s) = false)
    (hout : isMapFlag ("-o" ++ execPath) = false)
    (ho : ∀ f ∈ ofiles, isMapFlag f = false)
    (hmap : (mapFlagFn execPath).countP isMapFlag = 1) :
    ∀ inv ∈ (t.link run osEnviron mapFlagFn ofiles execPath script).invocations,
      inv.args.countP isMapFlag = if t.config.create_map_files then 1 else 0 := by
  intro inv hinv
  simp only [Toolchain.link, executeTool, List.mem_singleton] at hinv
  subst hinv
  have hlf0 : t.linker_flags.countP isMapFlag = 0 :=
    List.countP_eq_zero.mpr (by simpa using hlf)
  have ho0 : ofiles.countP isMapFlag = 0 :=
    List.countP_eq_zero.mpr (by simpa using ho)
  have hs0 : (match script with
      | some s => [t.linker_script_flag ++ s]
      | none => ([] : List String)).countP isMapFlag = 0 := by
    cases script with
    | none => simp
    | some s => simp [List.countP_cons, hsf s rfl]
  cases hmf : t.config.create_map_files <;>
    simp [execArgs, Toolchain.linkFlags, hmf, List.countP_append,
      List.countP_cons, htool, hout, hlf0, ho0, hs0, hmap]

/-- The fixtures for the C7 witness: map-file creation on, a `-Map=` flag
hook, and a recognizer for `-Map`-style flags. -/
def tMap : Toolchain :=
  { tElf with
    config := { cfgBase with create_map_files := true }
    linker_flags := ["-r"] }

/-- GNU-style map flag hook. -/
def mapFlagOf (execPath : String) : List String := ["-Map=" ++ execPath ++ ".map"]

/-- Recognizer for map-file flags. -/
def isMapOf (s : String) : Bool := pyStartsWith s "-Map"

/-- Witness for C7: with `create_map_files` true the concrete link argument
vector counts exactly one map-file flag. -/
theorem link_map_file_flag_witness :
    ((Toolchain.link tMap runOk [] mapFlagOf ["a.o"] "prog"
        (some "x.ld")).invocations.map (fun inv => inv.args.countP isMapOf)) = [1] := by
  have h := link_map_file_flag tMap runOk [] mapFlagOf ["a.o"] "prog"
    (some "x.ld") isMapOf (by decide) (by decide)
    (fun s hs => by injection hs with h; subst h; decide) (by decide)
    (by decide) (by decide)
  have hinv : (Toolchain.link tMap runOk [] mapFlagOf ["a.o"] "prog"
      (some "x.ld")).invocations
    = [⟨["ld", "-r", "-Tx.ld", "-Map=prog.map", "-oprog", "a.o"], []⟩] := by decide
  have h1 := h _ (hinv ▸ List.mem_singleton.mpr rfl)
  rw [hinv]
  simpa using h1

/-- Claim C9: an environment overlay is merged onto a copy of the ambient
environment for exactly that invocation: the ambient environment is
unchanged afterwards, the invocation sees `ambient` updated with the
overlay, and a subsequent overlay-free invocation sees the pristine
ambient environment. -/
theorem env_overlay_frame (run : ProcessRunner) (osEnviron : Env) (tool : String)
    (flags in_files : List String) (out_file : Option String) (overlay : Env)
    (hov : overlay ≠ []) :
    (executeTool run osEnviron tool flags in_files out_file (some overlay)).ambientAfter
      = osEnviron ∧
    (∀ inv ∈ (executeTool run osEnviron tool flags in_files out_file
        (some overlay)).invocations,
      inv.env = envUpdate osEnviron overlay) ∧
    (∀ tool2 flags2 in_files2 out_file2,
      ∀ inv ∈ (executeTool run
          (executeTool run osEnviron tool flags in_files out_file
            (some overlay)).ambientAfter
          tool2 flags2 in_files2 out_file2 none).invocations,
        inv.env = osEnviron) := by
  refine ⟨rfl, ?_, ?_⟩ <;> simp [executeTool, effectiveEnv, hov]

/-- Witness for C9: a concrete overlay `[("K", "V")]` over ambient
`[("A", "B")]` yields the merged environment for that invocation only. -/
theorem env_overlay_frame_witness :
    (executeTool runOk [("A", "B")] "tool" [] ["x"] none
        (some [("K", "V")])).ambientAfter = [("A", "B")] ∧
    ((executeTool runOk [("A", "B")] "tool" [] ["x"] none
        (some [("K", "V")])).invocations.map Invocation.env)
      = [[("A", "B"), ("K", "V")]] := by
  have h := env_overlay_frame runOk [("A", "B")] "tool" [] ["x"] none
    [("K", "V")] (by decide)
  exact ⟨h.1, by decide⟩

end Ofrak
